import Mathlib

-- Shallow embedding of marathon-photobooth-backend (src/server.js).
-- Pure functions model the request handlers; external effects (file system,
-- Gemini call) are resolved by an explicit World of outcomes; the in-memory
-- registries (activeSessions Map, kioskStats object) are association lists
-- with JS Map/object update semantics.

namespace Marathon

-- Status values stored in a session record (src/server.js lines 500, 545, 572).
inductive SessionStatus
  | processing
  | completed
  | failed
  deriving DecidableEq, Repr

-- One entry of the activeSessions Map (lines 497-504, 543-549, 570-576).
structure Session where
  kioskId : String
  startTime : Nat
  status : SessionStatus
  backgroundId : String
  gender : String
  prominence : String
  endTime : Option Nat := none
  outputFile : Option String := none
  errMsg : Option String := none
  deriving DecidableEq, Repr

-- One kioskStats record (lines 35-40).
structure KStats where
  total : Nat
  completed : Nat
  failed : Nat
  lastActive : Option Nat
  deriving DecidableEq, Repr

-- The fixed kiosk allow-list with zeroed counters (lines 35-40).
def initKioskStats : List (String × KStats) :=
  [("kiosk-1", { total := 0, completed := 0, failed := 0, lastActive := none }),
   ("kiosk-2", { total := 0, completed := 0, failed := 0, lastActive := none }),
   ("kiosk-3", { total := 0, completed := 0, failed := 0, lastActive := none }),
   ("kiosk-4", { total := 0, completed := 0, failed := 0, lastActive := none })]

-- The fields of a background entry that processGeneration reads (the prompt
-- metadata fields are consumed only by prompt construction, out of scope).
structure Background where
  name : String
  file : String
  deriving DecidableEq, Repr

-- The BACKGROUNDS catalog keys and files (lines 163-271).
def BACKGROUNDS : List (String × Background) :=
  [("amsterdam750-flowermarket", { name := "Historic Flower Market", file := "Amsterdam750-FlowerMarket.png" }),
   ("amsterdam750-goldenage", { name := "Golden Age Harbor", file := "Amsterdam750-GoldenAgeV2.png" }),
   ("amsterdam750-rijksmuseum", { name := "Rijksmuseum Celebration", file := "Amsterdam750-RijksmuseumV6.png" }),
   ("future-solarbridge", { name := "Solar Bridge Run", file := "FutureofRunning-SolarBridge3.png" }),
   ("future-biodomes", { name := "Canal Biodomes", file := "FutureofRunningBiodomes2.png" }),
   ("future-smartfinish", { name := "Smart Stadium Finish", file := "FututeofRunning-SmartFinish6.png" }),
   ("tcs50-firstmarathon", { name := "The First Marathon", file := "TCS50-FirstMarathon.png" }),
   ("tcs50-iamsterdam", { name := "I Amsterdam", file := "TCS50-IamsterdamV4.png" }),
   ("tcs50-vondelpark", { name := "Vondelpark", file := "TCS50-Vondelpark.png" })]

-- Association-list primitives with JS object / Map access semantics.

-- Read of obj[k] / map.get(k): first (unique) matching key.
def alookup {α : Type} (k : String) : List (String × α) → Option α
  | [] => none
  | p :: m => if p.1 = k then some p.2 else alookup k m

-- In-place mutation of the value at key k (no-op when the key is absent),
-- as in kioskStats[kioskId].total++ guarded by optional chaining.
def aupdate {α : Type} (m : List (String × α)) (k : String) (f : α → α) : List (String × α) :=
  m.map (fun p => if p.1 = k then (p.1, f p.2) else p)

-- Removal of the first entry with key k (map.delete(k) on a duplicate-free map).
def aerase {α : Type} (k : String) : List (String × α) → List (String × α)
  | [] => []
  | p :: m => if p.1 = k then m else p :: aerase k m

-- JS Map.set semantics: update in place if the key exists (keeping its
-- position in insertion order), otherwise append at the end.
def mapSet (m : List (String × Session)) (k : String) (v : Session) : List (String × Session) :=
  match alookup k m with
  | some _ => aupdate m k (fun _ => v)
  | none => m ++ [(k, v)]

-- kioskStats[kioskId]?.total !== undefined && (kioskStats[kioskId].total++);
-- kioskStats[kioskId] && (kioskStats[kioskId].lastActive = new Date());  (lines 493-494)
def bumpSubmit (stats : List (String × KStats)) (kioskId : String) (now : Nat) : List (String × KStats) :=
  aupdate stats kioskId (fun s => { s with total := s.total + 1, lastActive := some now })

-- kioskStats[kioskId]?.completed !== undefined && (kioskStats[kioskId].completed++);  (line 552)
def bumpCompleted (stats : List (String × KStats)) (kioskId : String) : List (String × KStats) :=
  aupdate stats kioskId (fun s => { s with completed := s.completed + 1 })

-- kioskStats[kioskId]?.failed !== undefined && (kioskStats[kioskId].failed++);  (line 579)
def bumpFailed (stats : List (String × KStats)) (kioskId : String) : List (String × KStats) :=
  aupdate stats kioskId (fun s => { s with failed := s.failed + 1 })

-- The in-memory server state touched by a generation job.
structure ServerState where
  sessions : List (String × Session)
  stats : List (String × KStats)
  deriving DecidableEq, Repr

def initState : ServerState :=
  { sessions := [], stats := initKioskStats }

-- Outcomes of the external effects a single processGeneration run awaits:
-- the background file read, the Gemini call (its candidate parts, each either
-- carrying inlineData or not), the output file write, and the clock readings.
structure World where
  readOk : Bool
  readErr : String
  genOk : Bool
  genErr : String
  parts : List Bool
  writeOk : Bool
  writeErr : String
  fileNow : Nat
  endNow : Nat
  deriving DecidableEq, Repr

-- Spread of undefined in {...activeSessions.get(sessionId)} when the session
-- is unexpectedly absent: all inherited fields are empty.
def blankSession : Session :=
  { kioskId := "", startTime := 0, status := SessionStatus.processing,
    backgroundId := "", gender := "", prominence := "" }

-- A fully successful World (used to evaluate the model at concrete inputs).
def sampleWorld : World :=
  { readOk := true, readErr := "", genOk := true, genErr := "", parts := [true],
    writeOk := true, writeErr := "", fileNow := 111, endNow := 222 }

-- The success payload of processGeneration (lines 554-562).
structure GenOk where
  imageUrl : String
  message : String
  sessionId : String
  kioskId : String
  queueSize : Nat
  processingTime : Int
  deriving DecidableEq, Repr

-- The try block of processGeneration (lines 506-566): resolve the background
-- (throws on unknown id), read the background file, call Gemini, then for the
-- first candidate part carrying image data apply the overlay (applyOverlay
-- catches its own errors and degrades to the original buffer, so it never
-- throws) and write the artifact; with no data part it throws
-- "No image generated".  Returns the artifact filename (line 537) or the
-- thrown error message.
def tryBody (backgroundId kioskId sessionId : String) (w : World) : Except String String :=
  match alookup backgroundId BACKGROUNDS with
  | none => Except.error "Invalid background selection"
  | some _ =>
    if !w.readOk then Except.error w.readErr
    else if !w.genOk then Except.error w.genErr
    else if w.parts.any id then
      if w.writeOk then
        Except.ok ("marathon_" ++ kioskId ++ "_" ++ toString w.fileNow ++ "_" ++ sessionId.take 8 ++ ".png")
      else Except.error w.writeErr
    else Except.error "No image generated"

-- Lines 488-504: stats bump for the owning kiosk and creation of the session
-- in processing state, before any validation or external call.
def processGenStart (st : ServerState) (backgroundId gender prominence kioskId sessionId : String)
    (startTime : Nat) : ServerState :=
  { stats := bumpSubmit st.stats kioskId startTime,
    sessions := mapSet st.sessions sessionId
      { kioskId := kioskId, startTime := startTime, status := SessionStatus.processing,
        backgroundId := backgroundId, gender := gender, prominence := prominence } }

-- Lines 488-583: the whole generation core.  Returns the mutated state and
-- either the success payload or the re-raised error message.
def processGeneration (st : ServerState) (backgroundId gender prominence kioskId sessionId : String)
    (startTime qsize : Nat) (w : World) : ServerState × Except String GenOk :=
  let st1 := processGenStart st backgroundId gender prominence kioskId sessionId startTime
  match tryBody backgroundId kioskId sessionId w with
  | Except.ok filename =>
    let s := (alookup sessionId st1.sessions).getD blankSession
    ({ sessions := mapSet st1.sessions sessionId
         { s with status := SessionStatus.completed, endTime := some w.endNow,
                  outputFile := some filename },
       stats := bumpCompleted st1.stats kioskId },
     Except.ok { imageUrl := "/outputs/" ++ filename,
                 message := "Marathon photo generated successfully!",
                 sessionId := sessionId, kioskId := kioskId, queueSize := qsize,
                 processingTime := (w.endNow : Int) - (startTime : Int) })
  | Except.error msg =>
    let s := (alookup sessionId st1.sessions).getD blankSession
    ({ sessions := mapSet st1.sessions sessionId
         { s with status := SessionStatus.failed, errMsg := some msg, endTime := some w.endNow },
       stats := bumpFailed st1.stats kioskId },
     Except.error msg)

-- The parsed body and header of a POST /api/generate request (lines 618-624).
structure GenRequest where
  kioskHeader : Option String
  backgroundId : Option String
  gender : Option String
  prominence : Option String
  selfie : Bool
  deriving DecidableEq, Repr

-- The possible responses of the POST /api/generate handler.
inductive GenResponse
  | badRequest
  | overloaded (queueSize : Nat)
  | ok (r : GenOk)
  | failed (details : String) (kioskId : String)
  deriving DecidableEq, Repr

-- A rendered JSON response (fields absent from a given response are none).
structure HttpResponse where
  status : Nat
  error : Option String := none
  message : Option String := none
  details : Option String := none
  kioskId : Option String := none
  queueSize : Option Nat := none
  result : Option GenOk := none
  deriving DecidableEq, Repr

-- res.status/res.json calls of the handler (lines 626, 640-643, 662, 665-669).
def renderResponse : GenResponse → HttpResponse
  | GenResponse.badRequest =>
    { status := 400, error := some "Missing required fields" }
  | GenResponse.overloaded q =>
    { status := 503, error := some "Server is busy, please try again", queueSize := some q }
  | GenResponse.ok r =>
    { status := 200, result := some r }
  | GenResponse.failed msg k =>
    { status := 500, error := some "Failed to generate image", details := some msg, kioskId := some k }

-- req.headers['x-kiosk-id'] || 'unknown'  (lines 53 and 619).
def kioskKey (header : Option String) : String := header.getD "unknown"

-- The POST /api/generate handler body (lines 618-671): required-field check,
-- backlog admission gate (generationQueue.size > 10), then the queued call to
-- processGeneration whose failure is converted by the catch clause.
def handleGenerate (st : ServerState) (req : GenRequest) (qsize : Nat) (sessionId : String)
    (now : Nat) (w : World) : ServerState × GenResponse :=
  let kioskId := kioskKey req.kioskHeader
  let bg := req.backgroundId.getD ""
  let g := req.gender.getD ""
  if bg = "" ∨ g = "" ∨ req.selfie = false then (st, GenResponse.badRequest)
  else if qsize > 10 then (st, GenResponse.overloaded qsize)
  else
    let prom := req.prominence.getD "medium"
    match processGeneration st bg g prom kioskId sessionId now qsize w with
    | (st2, Except.ok r) => (st2, GenResponse.ok r)
    | (st2, Except.error msg) => (st2, GenResponse.failed msg kioskId)

-- One row of the GET /api/monitor recentSessions array (lines 675-681).
structure MonitorEntry where
  id : String
  kioskId : String
  startTime : Nat
  status : SessionStatus
  backgroundId : String
  gender : String
  prominence : String
  endTime : Option Nat
  outputFile : Option String
  errMsg : Option String
  duration : Option Int
  deriving DecidableEq, Repr

def monitorEntry (p : String × Session) : MonitorEntry :=
  { id := p.1.take 8, kioskId := p.2.kioskId, startTime := p.2.startTime,
    status := p.2.status, backgroundId := p.2.backgroundId, gender := p.2.gender,
    prominence := p.2.prominence, endTime := p.2.endTime, outputFile := p.2.outputFile,
    errMsg := p.2.errMsg,
    duration := p.2.endTime.map (fun e => (e : Int) - (p.2.startTime : Int)) }

-- Array.from(map.entries()).slice(-20): the last (up to) 20 entries.
def lastN {α : Type} (n : Nat) (l : List α) : List α := l.drop (l.length - n)

-- recentSessions of the /api/monitor handler (lines 675-681).
def recentSessions (st : ServerState) : List MonitorEntry :=
  (lastN 20 st.sessions).map monitorEntry

-- ### Artifact reaper (lines 742-760)

instance exceptDecEq {ε α : Type} [DecidableEq ε] [DecidableEq α] : DecidableEq (Except ε α) :=
  fun x y =>
    match x, y with
    | Except.ok a, Except.ok b =>
      if h : a = b then isTrue (by rw [h]) else isFalse (by intro hh; cases hh; exact h rfl)
    | Except.error a, Except.error b =>
      if h : a = b then isTrue (by rw [h]) else isFalse (by intro hh; cases hh; exact h rfl)
    | Except.ok _, Except.error _ => isFalse (by intro hh; cases hh)
    | Except.error _, Except.ok _ => isFalse (by intro hh; cases hh)

-- One file of the outputs directory as seen by the sweep: its name, the
-- outcome of fs.stat (mtimeMs or a thrown error) and the outcome of fs.unlink.
structure OutFile where
  name : String
  statRes : Except String Nat
  unlinkRes : Except String Unit
  deriving DecidableEq, Repr

-- const maxAge = 4 * 60 * 60 * 1000  (line 747).
def reaperMaxAge : Nat := 4 * 60 * 60 * 1000

-- The for-loop of the hourly cleanup job.  The whole loop sits inside one
-- try/catch, so a throw from fs.stat or fs.unlink jumps to the catch clause
-- outside the loop: the deletions made so far stand, the remaining files are
-- not examined, and the error is logged and swallowed.
def sweepFrom (now : Nat) (files : List OutFile) (deleted : List String) : List String :=
  match files with
  | [] => deleted
  | f :: rest =>
    match f.statRes with
    | Except.error _ => deleted
    | Except.ok mtime =>
      if now - mtime > reaperMaxAge then
        match f.unlinkRes with
        | Except.error _ => deleted
        | Except.ok _ => sweepFrom now rest (deleted ++ [f.name])
      else sweepFrom now rest deleted

-- The list of files the hourly sweep deletes (lines 742-760).
def cleanupSweep (now : Nat) (files : List OutFile) : List String := sweepFrom now files []

-- ### Rate limiter (lines 49-57)

-- windowMs: 60 * 1000 and max: 5 of the kioskLimiter config (lines 51-52).
def rlWindowMs : Nat := 60 * 1000
def rlMax : Nat := 5

-- message: 'Too many requests from this kiosk, please wait'  (line 54).
def kioskLimiterMessage : String := "Too many requests from this kiosk, please wait"

-- Modelled from the spec: the express-rate-limit implementation is not part
-- of this repository (only its configuration at lines 49-57 is).  Per the
-- spec contract, each key holds the timestamps of its admitted requests; a
-- request at time now is admitted when fewer than rlMax admitted requests
-- fall in the trailing window (now - rlWindowMs, now], and stale timestamps
-- are expired.  Returns the decision and the updated per-key store.
def rlAdmit (admitted : List Nat) (now : Nat) : Bool × List Nat :=
  let recent := admitted.filter (fun t => decide (now < t + rlWindowMs))
  if recent.length < rlMax then (true, now :: recent) else (false, recent)

-- The per-key store after a sequence of requests at the given times.
def rlStateAfter (admitted : List Nat) : List Nat → List Nat
  | [] => admitted
  | t :: ts => rlStateAfter (rlAdmit admitted t).snd ts

-- The admission decisions for a sequence of request times.
def rlDecisions (admitted : List Nat) : List Nat → List Bool
  | [] => []
  | t :: ts => (rlAdmit admitted t).fst :: rlDecisions (rlAdmit admitted t).snd ts

-- The times of the requests admitted during a sequence of requests.
def rlAdmittedTimes (admitted : List Nat) : List Nat → List Nat
  | [] => []
  | t :: ts =>
    let r := rlAdmit admitted t
    if r.fst then t :: rlAdmittedTimes r.snd ts else rlAdmittedTimes r.snd ts

-- Modelled from the spec: the express-rate-limit response construction is not
-- part of this repository.  The library sends a structured 429-equivalent
-- refusal whose body is the configured message option (line 54), the same
-- constant string for every key.
def rateLimitRejection ( _key : String) : HttpResponse :=
  { status := 429, message := some kioskLimiterMessage }

-- Substring test used to ask whether a response text mentions a key.
def strContains (hay needle : String) : Bool :=
  hay.toList.tails.any (fun t => needle.toList.isPrefixOf t)

-- The rate-limiter middleware in front of the POST /api/generate handler
-- (app.post('/api/generate', kioskLimiter, ...)): on admission the handler
-- runs; on rejection the structured refusal is returned and the handler and
-- its state mutations never run.
def apiGenerate (admitted : List Nat) (reqTime : Nat) (st : ServerState) (req : GenRequest)
    (qsize : Nat) (sessionId : String) (w : World) : HttpResponse × ServerState × List Nat :=
  let key := kioskKey req.kioskHeader
  let r := rlAdmit admitted reqTime
  if r.fst then
    let hr := handleGenerate st req qsize sessionId reqTime w
    (renderResponse hr.snd, hr.fst, r.snd)
  else
    (rateLimitRejection key, st, r.snd)

-- ### Bounded job queue (lines 42-47)

-- concurrency: 2, interval: 1000, intervalCap: 3 of the generationQueue
-- config (lines 43-47).
def qConcurrency : Nat := 2
def qIntervalCap : Nat := 3

-- Modelled from the spec: the p-queue implementation is not part of this
-- repository (only its configuration at lines 42-47 is).  Per the spec, the
-- queue starts a task only while fewer than qConcurrency tasks are executing
-- and fewer than qIntervalCap tasks have already started in the current
-- 1-second bucket.  Events: a task start stamped with its bucket index, or a
-- task completion.
inductive QEv
  | start (bucket : Nat)
  | finish
  deriving DecidableEq, Repr

structure QState where
  running : Nat
  bucket : Nat
  startedInBucket : Nat
  deriving DecidableEq, Repr

def qInit : QState := { running := 0, bucket := 0, startedInBucket := 0 }

-- One scheduling step; none means the queue would not perform the event in
-- that state (time never flows backwards; guards per the spec constraints).
def qStep (s : QState) : QEv → Option QState
  | QEv.start b =>
    if b < s.bucket then none
    else if b = s.bucket then
      if s.running < qConcurrency ∧ s.startedInBucket < qIntervalCap then
        some { running := s.running + 1, bucket := b, startedInBucket := s.startedInBucket + 1 }
      else none
    else
      if s.running < qConcurrency then
        some { running := s.running + 1, bucket := b, startedInBucket := 1 }
      else none
  | QEv.finish =>
    if s.running = 0 then none else some { s with running := s.running - 1 }

def qExec : List QEv → QState → Option QState
  | [], s => some s
  | e :: es, s =>
    match qStep s e with
    | none => none
    | some s2 => qExec es s2

def isStart (b : Nat) : QEv → Bool
  | QEv.start b2 => b2 == b
  | QEv.finish => false

-- How many tasks started within bucket b during a trace.
def countStarts (evs : List QEv) (b : Nat) : Nat := evs.countP (isStart b)

-- ### Kiosk stats lifecycle (claim C2 harness)

-- The per-job stat mutations of processGeneration, replayed over an arbitrary
-- interleaving of job lifecycles: a submission bumps total/lastActive once
-- (lines 492-494) and the job's single terminal transition bumps completed
-- (line 552) or failed (line 579) once.
inductive JobEv
  | submit (jobId kioskId : String) (now : Nat)
  | finish (jobId : String) (ok : Bool)
  deriving DecidableEq, Repr

structure StatsWorld where
  stats : List (String × KStats)
  pending : List (String × String)
  deriving DecidableEq, Repr

def statsInit : StatsWorld := { stats := initKioskStats, pending := [] }

def jobStep (s : StatsWorld) : JobEv → Option StatsWorld
  | JobEv.submit j k now =>
    some { stats := bumpSubmit s.stats k now, pending := (j, k) :: s.pending }
  | JobEv.finish j ok =>
    match alookup j s.pending with
    | none => none
    | some k =>
      some { stats := if ok then bumpCompleted s.stats k else bumpFailed s.stats k,
             pending := aerase j s.pending }

def runJobs : List JobEv → StatsWorld → Option StatsWorld
  | [], s => some s
  | e :: es, s =>
    match jobStep s e with
    | none => none
    | some s2 => runJobs es s2

-- Jobs of kiosk k submitted but not yet terminal.
def pcount (k : String) (pending : List (String × String)) : Nat :=
  pending.countP (fun p => p.2 == k)

-- ### Session reaper (lines 727-739), kept for completeness of the model.

def sessionRetentionMs : Nat := 60 * 60 * 1000

def sessionSweep (now : Nat) (sessions : List (String × Session)) : List (String × Session) :=
  sessions.filter (fun p => decide (now - sessionRetentionMs ≤ p.2.startTime))

-- ## Lemmas about the association-list primitives

theorem alookup_append {α : Type} (k : String) (l1 l2 : List (String × α)) :
    alookup k (l1 ++ l2) =
      match alookup k l1 with
      | some v => some v
      | none => alookup k l2 := by
  induction l1 with
  | nil => simp [alookup]
  | cons p m ih =>
    by_cases h : p.1 = k
    · simp [alookup, h]
    · simp [alookup, h, ih]

theorem lookup_aupdate {α : Type} (m : List (String × α)) (k k2 : String) (f : α → α) :
    alookup k (aupdate m k2 f) = if k = k2 then (alookup k m).map f else alookup k m := by
  induction m with
  | nil => simp [alookup, aupdate]
  | cons p m ih =>
    obtain ⟨a, b⟩ := p
    by_cases h2 : a = k2
    · subst h2
      by_cases h1 : a = k
      · subst h1
        simp [alookup, aupdate]
      · have h1b : ¬ k = a := fun hh => h1 hh.symm
        simp [alookup, aupdate, h1, h1b]
        simpa [aupdate, h1b] using ih
    · by_cases h1 : a = k
      · subst h1
        simp [alookup, aupdate, h2, ih]
      · simp [alookup, aupdate, h1, h2]
        simpa [aupdate] using ih

theorem aupdate_of_none {α : Type} {m : List (String × α)} {k : String} (f : α → α)
    (h : alookup k m = none) : aupdate m k f = m := by
  induction m with
  | nil => simp [aupdate]
  | cons p m ih =>
    by_cases h1 : p.1 = k
    · simp [alookup, h1] at h
    · simp [alookup, h1] at h
      simpa [aupdate, h1] using ih h

theorem mapSet_of_none {m : List (String × Session)} {k : String} (v : Session)
    (h : alookup k m = none) : mapSet m k v = m ++ [(k, v)] := by
  simp [mapSet, h]

theorem alookup_mapSet_self (m : List (String × Session)) (k : String) (v : Session) :
    alookup k (mapSet m k v) = some v := by
  unfold mapSet
  cases h : alookup k m with
  | none =>
    rw [alookup_append, h]
    simp [alookup]
  | some u =>
    rw [lookup_aupdate, if_pos rfl, h]
    rfl

theorem alookup_mapSet_ne {k2 k : String} (m : List (String × Session)) (v : Session)
    (h : k2 ≠ k) : alookup k2 (mapSet m k v) = alookup k2 m := by
  unfold mapSet
  cases hm : alookup k m with
  | none =>
    rw [alookup_append]
    cases h2 : alookup k2 m with
    | none =>
      have hns : ¬ k = k2 := fun hh => h hh.symm
      simp [alookup, hns]
    | some u => rfl
  | some u => rw [lookup_aupdate, if_neg h]

theorem mapSet_append_self {m : List (String × Session)} {k : String} (v v2 : Session)
    (h : alookup k m = none) : mapSet (m ++ [(k, v)]) k v2 = m ++ [(k, v2)] := by
  have hl : alookup k (m ++ [(k, v)]) = some v := by
    rw [alookup_append, h]; simp [alookup]
  have h1 : aupdate m k (fun _ => v2) = m := aupdate_of_none _ h
  unfold mapSet
  rw [hl]
  show aupdate (m ++ [(k, v)]) k (fun _ => v2) = m ++ [(k, v2)]
  calc aupdate (m ++ [(k, v)]) k (fun _ => v2)
      = aupdate m k (fun _ => v2) ++ aupdate [(k, v)] k (fun _ => v2) := by
        simp [aupdate]
    _ = m ++ [(k, v2)] := by rw [h1]; simp [aupdate]

-- ## The shape of one processGeneration run

-- On a fresh session id the run appends exactly one session entry, created in
-- processing state and finally carrying the one terminal outcome of the job.
theorem processGeneration_fresh (st : ServerState) (bg g pr kiosk sid : String) (t q : Nat)
    (w : World) (hfresh : alookup sid st.sessions = none) :
    ∃ s2 : Session,
      (processGeneration st bg g pr kiosk sid t q w).fst.sessions = st.sessions ++ [(sid, s2)]
      ∧ s2.kioskId = kiosk ∧ s2.startTime = t ∧ s2.backgroundId = bg ∧ s2.gender = g
      ∧ s2.prominence = pr ∧ s2.endTime = some w.endNow
      ∧ ((∃ msg, tryBody bg kiosk sid w = Except.error msg ∧ s2.status = SessionStatus.failed
            ∧ s2.errMsg = some msg ∧ s2.outputFile = none)
         ∨ (∃ fn, tryBody bg kiosk sid w = Except.ok fn ∧ s2.status = SessionStatus.completed
            ∧ s2.outputFile = some fn ∧ s2.errMsg = none)) := by
  have hlook : alookup sid (mapSet st.sessions sid
      { kioskId := kiosk, startTime := t, status := SessionStatus.processing,
        backgroundId := bg, gender := g, prominence := pr })
      = some { kioskId := kiosk, startTime := t, status := SessionStatus.processing,
               backgroundId := bg, gender := g, prominence := pr } :=
    alookup_mapSet_self _ _ _
  cases h : tryBody bg kiosk sid w with
  | error msg =>
    refine ⟨{ kioskId := kiosk, startTime := t, status := SessionStatus.failed,
              backgroundId := bg, gender := g, prominence := pr,
              endTime := some w.endNow, outputFile := none, errMsg := some msg },
            ?_, rfl, rfl, rfl, rfl, rfl, rfl,
            Or.inl ⟨msg, rfl, rfl, rfl, rfl⟩⟩
    simp only [processGeneration, processGenStart, h]
    rw [hlook]
    simp only [Option.getD_some]
    rw [mapSet_of_none _ hfresh, mapSet_append_self _ _ hfresh]
  | ok fn =>
    refine ⟨{ kioskId := kiosk, startTime := t, status := SessionStatus.completed,
              backgroundId := bg, gender := g, prominence := pr,
              endTime := some w.endNow, outputFile := some fn, errMsg := none },
            ?_, rfl, rfl, rfl, rfl, rfl, rfl,
            Or.inr ⟨fn, rfl, rfl, rfl, rfl⟩⟩
    simp only [processGeneration, processGenStart, h]
    rw [hlook]
    simp only [Option.getD_some]
    rw [mapSet_of_none _ hfresh, mapSet_append_self _ _ hfresh]

-- The stats after a run: total/lastActive bumped at submission, then exactly
-- one of completed/failed bumped at the terminal transition.
theorem processGeneration_stats (st : ServerState) (bg g pr kiosk sid : String) (t q : Nat)
    (w : World) :
    (processGeneration st bg g pr kiosk sid t q w).fst.stats
      = match tryBody bg kiosk sid w with
        | Except.ok _ => bumpCompleted (bumpSubmit st.stats kiosk t) kiosk
        | Except.error _ => bumpFailed (bumpSubmit st.stats kiosk t) kiosk := by
  cases h : tryBody bg kiosk sid w with
  | error msg => simp [processGeneration, processGenStart, h]
  | ok fn => simp [processGeneration, processGenStart, h]

-- The value returned to the caller: success payload, or the re-raised error.
theorem processGeneration_snd (st : ServerState) (bg g pr kiosk sid : String) (t q : Nat)
    (w : World) :
    (processGeneration st bg g pr kiosk sid t q w).snd
      = match tryBody bg kiosk sid w with
        | Except.ok fn =>
          Except.ok { imageUrl := "/outputs/" ++ fn,
                      message := "Marathon photo generated successfully!",
                      sessionId := sid, kioskId := kiosk, queueSize := q,
                      processingTime := (w.endNow : Int) - (t : Int) }
        | Except.error msg => Except.error msg := by
  cases h : tryBody bg kiosk sid w with
  | error msg => simp [processGeneration, processGenStart, h]
  | ok fn => simp [processGeneration, processGenStart, h]

-- A run for one session id never touches any other session's entry.
theorem processGeneration_other (st : ServerState) (bg g pr kiosk sid sid2 : String)
    (t q : Nat) (w : World) (hne : sid2 ≠ sid) :
    alookup sid2 (processGeneration st bg g pr kiosk sid t q w).fst.sessions
      = alookup sid2 st.sessions := by
  cases h : tryBody bg kiosk sid w with
  | error msg =>
    simp only [processGeneration, processGenStart, h]
    rw [alookup_mapSet_ne _ _ hne, alookup_mapSet_ne _ _ hne]
  | ok fn =>
    simp only [processGeneration, processGenStart, h]
    rw [alookup_mapSet_ne _ _ hne, alookup_mapSet_ne _ _ hne]

theorem alookup_append_singleton {α : Type} {m : List (String × α)} {k : String} (v : α)
    (h : alookup k m = none) : alookup k (m ++ [(k, v)]) = some v := by
  rw [alookup_append, h]
  simp [alookup]

-- ## Claim C1

/-- Claim C1: for every session, the status field transitions at most once out
of processing, to exactly one of completed or failed: a fresh session is
created in processing state, the run ends with that session in a terminal
state (preserving its identity fields), and no later run for a different
session id ever mutates it again. -/
theorem session_single_terminal_transition
    (st : ServerState) (bg g pr kiosk sid : String) (t q : Nat) (w : World)
    (hfresh : alookup sid st.sessions = none) :
    (∃ s1, alookup sid (processGenStart st bg g pr kiosk sid t).sessions = some s1
       ∧ s1.status = SessionStatus.processing)
    ∧ (∃ s2, alookup sid (processGeneration st bg g pr kiosk sid t q w).fst.sessions = some s2
       ∧ (s2.status = SessionStatus.completed ∨ s2.status = SessionStatus.failed)
       ∧ s2.kioskId = kiosk ∧ s2.startTime = t)
    ∧ (∀ bg2 g2 pr2 kiosk2 sid2 t2 q2 w2, sid2 ≠ sid →
        alookup sid (processGeneration (processGeneration st bg g pr kiosk sid t q w).fst
            bg2 g2 pr2 kiosk2 sid2 t2 q2 w2).fst.sessions
          = alookup sid (processGeneration st bg g pr kiosk sid t q w).fst.sessions) := by
  refine ⟨⟨_, alookup_mapSet_self _ _ _, rfl⟩, ?_, ?_⟩
  · obtain ⟨s2, hsess, hk, ht, _, _, _, _, hout⟩ :=
      processGeneration_fresh st bg g pr kiosk sid t q w hfresh
    refine ⟨s2, ?_, ?_, hk, ht⟩
    · rw [hsess]
      exact alookup_append_singleton _ hfresh
    · rcases hout with ⟨msg, _, hst, _, _⟩ | ⟨fn, _, hst, _, _⟩
      · exact Or.inr hst
      · exact Or.inl hst
  · intro bg2 g2 pr2 kiosk2 sid2 t2 q2 w2 hne
    exact processGeneration_other _ bg2 g2 pr2 kiosk2 sid2 sid t2 q2 w2 hne.symm

theorem session_single_terminal_transition_witness :
    (∃ s1, alookup "sess-aaaa0001"
        (processGenStart initState "tcs50-vondelpark" "female" "low" "kiosk-1" "sess-aaaa0001" 100).sessions
        = some s1 ∧ s1.status = SessionStatus.processing)
    ∧ (∃ s2, alookup "sess-aaaa0001"
        (processGeneration initState "tcs50-vondelpark" "female" "low" "kiosk-1" "sess-aaaa0001"
          100 0 sampleWorld).fst.sessions = some s2
       ∧ (s2.status = SessionStatus.completed ∨ s2.status = SessionStatus.failed)
       ∧ s2.kioskId = "kiosk-1" ∧ s2.startTime = 100)
    ∧ alookup "sess-aaaa0001"
        (processGeneration
          (processGeneration initState "tcs50-vondelpark" "female" "low" "kiosk-1" "sess-aaaa0001"
            100 0 sampleWorld).fst
          "future-biodomes" "male" "medium" "kiosk-2" "sess-bbbb0002" 300 1 sampleWorld).fst.sessions
      = alookup "sess-aaaa0001"
          (processGeneration initState "tcs50-vondelpark" "female" "low" "kiosk-1" "sess-aaaa0001"
            100 0 sampleWorld).fst.sessions := by
  have h := session_single_terminal_transition initState "tcs50-vondelpark" "female" "low"
    "kiosk-1" "sess-aaaa0001" 100 0 sampleWorld (by rfl)
  exact ⟨h.1, h.2.1,
    h.2.2 "future-biodomes" "male" "medium" "kiosk-2" "sess-bbbb0002" 300 1 sampleWorld
      (by decide)⟩

-- ## Claim C5

/-- Claim C5: for every job that fails inside the try block (an unknown
backgroundId included), the orchestrator sets the session to failed with the
error's message and an end time, increments the owning kiosk's failed counter
by exactly one when the kiosk is in the allow-list, and re-raises the same
failure to the caller. -/
theorem failure_records_and_reraises
    (st : ServerState) (bg g pr kiosk sid : String) (t q : Nat) (w : World) (msg : String)
    (hfresh : alookup sid st.sessions = none)
    (herr : tryBody bg kiosk sid w = Except.error msg) :
    (processGeneration st bg g pr kiosk sid t q w).snd = Except.error msg
    ∧ (∃ s2, alookup sid (processGeneration st bg g pr kiosk sid t q w).fst.sessions = some s2
        ∧ s2.status = SessionStatus.failed ∧ s2.errMsg = some msg ∧ s2.endTime = some w.endNow)
    ∧ (∀ ks, alookup kiosk st.stats = some ks →
        alookup kiosk (processGeneration st bg g pr kiosk sid t q w).fst.stats
          = some { ks with total := ks.total + 1, failed := ks.failed + 1,
                           lastActive := some t })
    ∧ (alookup bg BACKGROUNDS = none →
        tryBody bg kiosk sid w = Except.error "Invalid background selection") := by
  refine ⟨?_, ?_, ?_, ?_⟩
  · rw [processGeneration_snd, herr]
  · obtain ⟨s2, hsess, _, _, _, _, _, hend, hout⟩ :=
      processGeneration_fresh st bg g pr kiosk sid t q w hfresh
    rcases hout with ⟨msg2, herr2, hst, hmsg, _⟩ | ⟨fn, hok, _, _, _⟩
    · have : msg2 = msg := by
        rw [herr] at herr2
        exact (Except.error.injEq _ _).mp herr2.symm
      refine ⟨s2, ?_, hst, this ▸ hmsg, hend⟩
      rw [hsess]
      exact alookup_append_singleton _ hfresh
    · rw [herr] at hok
      cases hok
  · intro ks hks
    rw [processGeneration_stats, herr]
    simp [bumpFailed, bumpSubmit, lookup_aupdate, hks]
  · intro hnone
    simp [tryBody, hnone]

theorem failure_records_and_reraises_witness :
    (processGeneration initState "no-such-bg" "male" "high" "kiosk-1" "sess-cccc0003"
        50 2 sampleWorld).snd = Except.error "Invalid background selection"
    ∧ (∃ s2, alookup "sess-cccc0003"
        (processGeneration initState "no-such-bg" "male" "high" "kiosk-1" "sess-cccc0003"
          50 2 sampleWorld).fst.sessions = some s2
        ∧ s2.status = SessionStatus.failed
        ∧ s2.errMsg = some "Invalid background selection" ∧ s2.endTime = some 222)
    ∧ alookup "kiosk-1"
        (processGeneration initState "no-such-bg" "male" "high" "kiosk-1" "sess-cccc0003"
          50 2 sampleWorld).fst.stats
        = some { total := 1, completed := 0, failed := 1, lastActive := some 50 } := by
  have h := failure_records_and_reraises initState "no-such-bg" "male" "high" "kiosk-1"
    "sess-cccc0003" 50 2 sampleWorld "Invalid background selection" (by rfl) (by decide)
  exact ⟨h.1, h.2.1,
    h.2.2.1 { total := 0, completed := 0, failed := 0, lastActive := none } (by decide)⟩

theorem drop_append_le {α : Type} :
    ∀ (l1 l2 : List α) (n : Nat), n ≤ l1.length → (l1 ++ l2).drop n = l1.drop n ++ l2 := by
  intro l1
  induction l1 with
  | nil =>
    intro l2 n h
    simp at h
    subst h
    simp
  | cons a l ih =>
    intro l2 n h
    cases n with
    | zero => simp
    | succ n =>
      simp only [List.cons_append, List.drop_succ_cons]
      exact ih l2 n (by simpa using h)

theorem mem_lastN_concat {α : Type} (n : Nat) (hn : 0 < n) (l : List α) (x : α) :
    x ∈ lastN n (l ++ [x]) := by
  unfold lastN
  have hlen : (l ++ [x]).length = l.length + 1 := by simp
  rw [hlen]
  have hk : l.length + 1 - n ≤ l.length := by omega
  rw [drop_append_le _ _ _ hk]
  exact List.mem_append_right _ (by simp)

-- ## Claim C10

/-- Claim C10: a request reaching processGeneration creates a session keyed by
the fresh id with status processing whatever the kiosk id and background id
are (validation of the background happens only afterwards); for a kiosk id
outside the stats allow-list no kiosk counter ever changes, yet the session
appears in the registry and in the recentSessions list of the /api/monitor
output. -/
theorem unknown_kiosk_session_tracked
    (st : ServerState) (bg g pr kiosk sid : String) (t q : Nat) (w : World)
    (hk : alookup kiosk st.stats = none)
    (hfresh : alookup sid st.sessions = none) :
    (∃ s1, alookup sid (processGenStart st bg g pr kiosk sid t).sessions = some s1
       ∧ s1.status = SessionStatus.processing ∧ s1.kioskId = kiosk)
    ∧ (processGeneration st bg g pr kiosk sid t q w).fst.stats = st.stats
    ∧ (∃ m, m ∈ recentSessions (processGeneration st bg g pr kiosk sid t q w).fst
        ∧ m.id = sid.take 8 ∧ m.kioskId = kiosk) := by
  refine ⟨⟨_, alookup_mapSet_self _ _ _, rfl, rfl⟩, ?_, ?_⟩
  · have h1 : bumpSubmit st.stats kiosk t = st.stats := aupdate_of_none _ hk
    have h2 : bumpCompleted st.stats kiosk = st.stats := aupdate_of_none _ hk
    have h3 : bumpFailed st.stats kiosk = st.stats := aupdate_of_none _ hk
    rw [processGeneration_stats]
    cases htb : tryBody bg kiosk sid w with
    | error msg => simp [h1, h3]
    | ok fn => simp [h1, h2]
  · obtain ⟨s2, hsess, hk2, _, _, _, _, _, _⟩ :=
      processGeneration_fresh st bg g pr kiosk sid t q w hfresh
    have hmem : (sid, s2) ∈ lastN 20 (processGeneration st bg g pr kiosk sid t q w).fst.sessions := by
      rw [hsess]
      exact mem_lastN_concat 20 (by omega) st.sessions (sid, s2)
    refine ⟨monitorEntry (sid, s2), ?_, ?_, hk2⟩
    · simp only [recentSessions]
      exact List.mem_map_of_mem monitorEntry hmem
    · simp [monitorEntry]

theorem unknown_kiosk_session_tracked_witness :
    (∃ s1, alookup "sess-dddd0004"
        (processGenStart initState "no-such-bg" "female" "medium" "unknown" "sess-dddd0004" 10).sessions
        = some s1 ∧ s1.status = SessionStatus.processing ∧ s1.kioskId = "unknown")
    ∧ (processGeneration initState "no-such-bg" "female" "medium" "unknown" "sess-dddd0004"
        10 0 sampleWorld).fst.stats = initState.stats
    ∧ (∃ m, m ∈ recentSessions (processGeneration initState "no-such-bg" "female" "medium"
          "unknown" "sess-dddd0004" 10 0 sampleWorld).fst
        ∧ m.id = "sess-ddd" ∧ m.kioskId = "unknown") := by
  have h := unknown_kiosk_session_tracked initState "no-such-bg" "female" "medium" "unknown"
    "sess-dddd0004" 10 0 sampleWorld (by decide) (by rfl)
  refine ⟨h.1, h.2.1, ?_⟩
  obtain ⟨m, hm, hid, hkid⟩ := h.2.2
  exact ⟨m, hm, by rw [hid]; decide, hkid⟩

-- ## Claim C4 (corrected): the 500 response carries the error message verbatim

/-- Claim C4 counterexample: at a concrete failing job the response body of the
POST /api/generate handler carries the underlying error's message verbatim in
its details field (line 667: details: error.message), so the body does not
consist only of the generic message and the kiosk id. -/
theorem error_details_leaked_counterexample :
    renderResponse (handleGenerate initState
        { kioskHeader := some "kiosk-1", backgroundId := some "no-such-bg",
          gender := some "male", prominence := none, selfie := true }
        0 "sess-x" 5 sampleWorld).snd
      = { status := 500, error := some "Failed to generate image",
          details := some "Invalid background selection", kioskId := some "kiosk-1" } := by
  decide

/-- Claim C4 as amended: for every failing job the handler's response has the
generic error text and the kiosk id, and additionally returns the underlying
error's message verbatim in the details field (it is logged server-side as
well, but not only). -/
theorem failure_response_with_details
    (st : ServerState) (req : GenRequest) (qsize : Nat) (sid : String) (now : Nat)
    (w : World) (msg : String)
    (hv : ¬(req.backgroundId.getD "" = "" ∨ req.gender.getD "" = "" ∨ req.selfie = false))
    (hq : ¬ qsize > 10)
    (herr : tryBody (req.backgroundId.getD "") (kioskKey req.kioskHeader) sid w
        = Except.error msg) :
    renderResponse (handleGenerate st req qsize sid now w).snd
      = { status := 500, error := some "Failed to generate image", details := some msg,
          kioskId := some (kioskKey req.kioskHeader) } := by
  have hsnd := processGeneration_snd st (req.backgroundId.getD "") (req.gender.getD "")
    (req.prominence.getD "medium") (kioskKey req.kioskHeader) sid now qsize w
  rw [herr] at hsnd
  simp only [handleGenerate]
  rw [if_neg hv, if_neg hq]
  rcases hpq : processGeneration st (req.backgroundId.getD "") (req.gender.getD "")
      (req.prominence.getD "medium") (kioskKey req.kioskHeader) sid now qsize w with ⟨st2, r⟩
  rw [hpq] at hsnd
  simp only at hsnd
  subst hsnd
  simp [hpq, renderResponse]

theorem failure_response_with_details_witness :
    renderResponse (handleGenerate initState
        { kioskHeader := some "kiosk-4", backgroundId := some "no-such-bg",
          gender := some "female", prominence := some "high", selfie := true }
        3 "sess-eeee0005" 40 sampleWorld).snd
      = { status := 500, error := some "Failed to generate image",
          details := some "Invalid background selection", kioskId := some "kiosk-4" } :=
  failure_response_with_details initState
    { kioskHeader := some "kiosk-4", backgroundId := some "no-such-bg",
      gender := some "female", prominence := some "high", selfie := true }
    3 "sess-eeee0005" 40 sampleWorld "Invalid background selection"
    (by decide) (by decide) (by decide)

-- ## Claim C6 (corrected): the overload gate runs after the field check

/-- Claim C6 counterexample: a submission missing backgroundId that arrives
while the backlog is 11 is rejected with the 400 missing-fields response, not
with the 503 overload response, because the required-field check precedes the
backlog check in the handler. -/
theorem overload_gate_counterexample :
    (handleGenerate initState
        { kioskHeader := some "kiosk-2", backgroundId := none, gender := some "male",
          prominence := none, selfie := true }
        11 "sess-y" 0 sampleWorld).snd = GenResponse.badRequest
    ∧ GenResponse.badRequest ≠ GenResponse.overloaded 11 := by
  exact ⟨by decide, by decide⟩

/-- Claim C6 as amended: a submission that passes the required-field check and
arrives while the backlog exceeds 10 is rejected with the 503-equivalent
overload response carrying the current backlog size and the handler returns
with the state untouched (the task never reaches the queue); with backlog at
most 10 no submission is rejected by this gate. -/
theorem overload_gate (st : ServerState) (req : GenRequest) (qsize : Nat) (sid : String)
    (now : Nat) (w : World) :
    (¬(req.backgroundId.getD "" = "" ∨ req.gender.getD "" = "" ∨ req.selfie = false) →
      qsize > 10 → handleGenerate st req qsize sid now w = (st, GenResponse.overloaded qsize))
    ∧ (qsize ≤ 10 →
      ∀ q2, (handleGenerate st req qsize sid now w).snd ≠ GenResponse.overloaded q2) := by
  constructor
  · intro hv hq
    simp only [handleGenerate]
    rw [if_neg hv, if_pos hq]
  · intro hq q2
    by_cases hv : (req.backgroundId.getD "" = "" ∨ req.gender.getD "" = "" ∨ req.selfie = false)
    · simp only [handleGenerate]
      rw [if_pos hv]
      intro hcon
      cases hcon
    · have hq2 : ¬ qsize > 10 := by omega
      simp only [handleGenerate]
      rw [if_neg hv, if_neg hq2]
      rcases hpq : processGeneration st (req.backgroundId.getD "") (req.gender.getD "")
          (req.prominence.getD "medium") (kioskKey req.kioskHeader) sid now qsize w with ⟨st2, r⟩
      cases r with
      | ok v => simp
      | error msg => simp

theorem overload_gate_witness :
    handleGenerate initState
        { kioskHeader := some "kiosk-1", backgroundId := some "tcs50-vondelpark",
          gender := some "female", prominence := some "low", selfie := true }
        11 "sess-ffff0006" 0 sampleWorld = (initState, GenResponse.overloaded 11)
    ∧ (handleGenerate initState
        { kioskHeader := some "kiosk-1", backgroundId := some "tcs50-vondelpark",
          gender := some "female", prominence := some "low", selfie := true }
        5 "sess-ffff0006" 0 sampleWorld).snd ≠ GenResponse.overloaded 5 :=
  ⟨(overload_gate initState
      { kioskHeader := some "kiosk-1", backgroundId := some "tcs50-vondelpark",
        gender := some "female", prominence := some "low", selfie := true }
      11 "sess-ffff0006" 0 sampleWorld).1 (by decide) (by decide),
   (overload_gate initState
      { kioskHeader := some "kiosk-1", backgroundId := some "tcs50-vondelpark",
        gender := some "female", prominence := some "low", selfie := true }
      5 "sess-ffff0006" 0 sampleWorld).2 (by decide) 5⟩

-- ## Claim C3 (corrected): one stat/unlink failure aborts the whole sweep

/-- Claim C3 counterexample: with two files in the outputs directory where the
first one's fs.stat throws and the second is older than the 4-hour threshold,
the hourly sweep deletes nothing: the failure aborts the scan of the remaining
files, so the old second file is not deleted. -/
theorem reaper_abort_counterexample :
    cleanupSweep 20000000
      [{ name := "a.png", statRes := Except.error "EACCES: permission denied",
         unlinkRes := Except.ok () },
       { name := "b.png", statRes := Except.ok 0, unlinkRes := Except.ok () }] = []
    ∧ 20000000 - 0 > reaperMaxAge := by
  exact ⟨by decide, by decide⟩

theorem sweepFrom_abort (now : Nat) (bad : OutFile) (rest : List OutFile)
    (hbad : (∃ e, bad.statRes = Except.error e)
      ∨ (∃ m, bad.statRes = Except.ok m ∧ now - m > reaperMaxAge
          ∧ ∃ e, bad.unlinkRes = Except.error e)) :
    ∀ (p : List OutFile) (acc : List String),
      sweepFrom now (p ++ bad :: rest) acc = sweepFrom now p acc := by
  intro p
  induction p with
  | nil =>
    intro acc
    rcases hbad with ⟨e, he⟩ | ⟨m, hm, hold, e, he⟩
    · simp [sweepFrom, he]
    · simp [sweepFrom, hm, hold, he]
  | cons f p ih =>
    intro acc
    cases hf : f.statRes with
    | error e => simp [sweepFrom, hf]
    | ok m =>
      by_cases hold : now - m > reaperMaxAge
      · cases hu : f.unlinkRes with
        | error e2 => simp [sweepFrom, hf, hold, hu]
        | ok u => simp [sweepFrom, hf, hold, hu, ih]
      · simp [sweepFrom, hf, hold, ih]

/-- Claim C3 as amended: the first file whose fs.stat throws, or whose deletion
throws after qualifying as stale, aborts the scan: the files after it are not
examined at all (the sweep result is exactly that of the preceding files), and
the error is swallowed by the catch clause so the sweep still returns. -/
theorem reaper_sweep_aborts (now : Nat) (p : List OutFile) (bad : OutFile) (rest : List OutFile)
    (hbad : (∃ e, bad.statRes = Except.error e)
      ∨ (∃ m, bad.statRes = Except.ok m ∧ now - m > reaperMaxAge
          ∧ ∃ e, bad.unlinkRes = Except.error e)) :
    cleanupSweep now (p ++ bad :: rest) = cleanupSweep now p := by
  unfold cleanupSweep
  exact sweepFrom_abort now bad rest hbad p []

theorem reaper_sweep_aborts_witness :
    cleanupSweep 20000000
      [{ name := "ok-old.png", statRes := Except.ok 1000, unlinkRes := Except.ok () },
       { name := "broken.png", statRes := Except.error "EACCES: permission denied",
         unlinkRes := Except.ok () },
       { name := "other-old.png", statRes := Except.ok 0, unlinkRes := Except.ok () }]
      = cleanupSweep 20000000
          [{ name := "ok-old.png", statRes := Except.ok 1000, unlinkRes := Except.ok () }] :=
  reaper_sweep_aborts 20000000
    [{ name := "ok-old.png", statRes := Except.ok 1000, unlinkRes := Except.ok () }]
    { name := "broken.png", statRes := Except.error "EACCES: permission denied",
      unlinkRes := Except.ok () }
    [{ name := "other-old.png", statRes := Except.ok 0, unlinkRes := Except.ok () }]
    (Or.inl ⟨"EACCES: permission denied", rfl⟩)

-- ## Claim C8 (corrected): the refusal is structured but names no key

/-- Claim C8 counterexample: the rate-limit refusal is the same value for every
key and its configured message does not contain the rejected key's name
(here kiosk-1), so the refusal does not surface the key's name. -/
theorem rate_limit_refusal_counterexample :
    rateLimitRejection "kiosk-1" = rateLimitRejection "another-key"
    ∧ strContains kioskLimiterMessage "kiosk-1" = false
    ∧ (rateLimitRejection "kiosk-1").message = some kioskLimiterMessage := by
  exact ⟨by decide, by decide, by decide⟩

/-- Claim C8 as amended: a rate-limited request receives a structured refusal
(status 429 with the configured constant message), not an exception, and the
handler and its state mutations never run; but the refusal carries the same
fixed message for every key and does not surface the rejected key's name. -/
theorem rate_limit_refusal_structured
    (admitted : List Nat) (reqTime : Nat) (st : ServerState) (req : GenRequest)
    (qsize : Nat) (sid : String) (w : World)
    (hrej : (rlAdmit admitted reqTime).fst = false) :
    apiGenerate admitted reqTime st req qsize sid w
      = (rateLimitRejection (kioskKey req.kioskHeader), st, (rlAdmit admitted reqTime).snd)
    ∧ (rateLimitRejection (kioskKey req.kioskHeader)).status = 429
    ∧ (rateLimitRejection (kioskKey req.kioskHeader)).message = some kioskLimiterMessage
    ∧ ∀ k2, rateLimitRejection (kioskKey req.kioskHeader) = rateLimitRejection k2 := by
  refine ⟨?_, rfl, rfl, fun k2 => rfl⟩
  simp [apiGenerate, hrej]

theorem rate_limit_refusal_structured_witness :
    apiGenerate [100, 200, 300, 400, 500] 600 initState
        { kioskHeader := some "kiosk-3", backgroundId := some "tcs50-vondelpark",
          gender := some "male", prominence := none, selfie := true }
        0 "sess-gggg0007" sampleWorld
      = (rateLimitRejection "kiosk-3", initState, [100, 200, 300, 400, 500])
    ∧ (rateLimitRejection "kiosk-3").message = some kioskLimiterMessage := by
  have h := rate_limit_refusal_structured [100, 200, 300, 400, 500] 600 initState
    { kioskHeader := some "kiosk-3", backgroundId := some "tcs50-vondelpark",
      gender := some "male", prominence := none, selfie := true }
    0 "sess-gggg0007" sampleWorld (by decide)
  refine ⟨?_, h.2.2.1⟩
  rw [h.1]
  decide

-- ## Claim C2: completed + failed never exceeds total

theorem pcount_cons (k j k0 : String) (pending : List (String × String)) :
    pcount k ((j, k0) :: pending) = pcount k pending + (if k0 = k then 1 else 0) := by
  by_cases hk : k0 = k
  · simp [pcount, List.countP_cons, hk]
  · simp [pcount, List.countP_cons, hk]

theorem pcount_aerase (j : String) (pending : List (String × String)) (k0 : String)
    (h : alookup j pending = some k0) :
    ∀ k, pcount k (aerase j pending) + (if k0 = k then 1 else 0) = pcount k pending := by
  induction pending with
  | nil => simp [alookup] at h
  | cons q pend ih =>
    obtain ⟨a, b⟩ := q
    intro k
    by_cases ha : a = j
    · simp only [alookup, if_pos ha] at h
      have hb : b = k0 := by
        injection h
      subst hb
      simp only [aerase, if_pos ha]
      rw [pcount_cons]
    · simp only [alookup, if_neg ha] at h
      simp only [aerase, if_neg ha]
      rw [pcount_cons, pcount_cons]
      have := ih h k
      omega

-- The per-kiosk accounting invariant: the two terminal counters plus the
-- kiosk's still-pending jobs always add up to its total counter.
def statsInv (s : StatsWorld) : Prop :=
  ∀ k ks, alookup k s.stats = some ks →
    ks.completed + ks.failed + pcount k s.pending = ks.total

theorem statsInv_bump (stats : List (String × KStats)) (k0 k : String) (f : KStats → KStats)
    (ks : KStats) (hks : alookup k (aupdate stats k0 f) = some ks) :
    (k = k0 ∧ ∃ ks0, alookup k stats = some ks0 ∧ ks = f ks0)
    ∨ (¬ k = k0 ∧ alookup k stats = some ks) := by
  rw [lookup_aupdate] at hks
  by_cases hk : k = k0
  · rw [if_pos hk] at hks
    cases hsk : alookup k stats with
    | none => rw [hsk] at hks; cases hks
    | some ks0 =>
      rw [hsk] at hks
      rw [Option.map_some'] at hks
      injection hks with hks2
      exact Or.inl ⟨hk, ks0, rfl, hks2.symm⟩
  · rw [if_neg hk] at hks
    exact Or.inr ⟨hk, hks⟩

theorem statsInv_step (s : StatsWorld) (e : JobEv) (s2 : StatsWorld)
    (hinv : statsInv s) (hstep : jobStep s e = some s2) : statsInv s2 := by
  cases e with
  | submit j k0 now =>
    simp only [jobStep, Option.some.injEq] at hstep
    subst hstep
    intro k ks hks
    simp only at hks ⊢
    rw [pcount_cons]
    rcases statsInv_bump s.stats k0 k _ ks hks with ⟨hk, ks0, hsk, hval⟩ | ⟨hk, hsk⟩
    · have h0 := hinv k ks0 hsk
      have hc : ks.completed = ks0.completed := by rw [hval]
      have hf : ks.failed = ks0.failed := by rw [hval]
      have ht : ks.total = ks0.total + 1 := by rw [hval]
      have hk0 : k0 = k := hk.symm
      rw [if_pos hk0]
      omega
    · have h0 := hinv k ks hsk
      have hk0 : ¬ k0 = k := fun hh => hk hh.symm
      rw [if_neg hk0]
      omega
  | finish j ok =>
    cases hpl : alookup j s.pending with
    | none => simp [jobStep, hpl] at hstep
    | some k0 =>
      have hpc := pcount_aerase j s.pending k0 hpl
      cases ok with
      | true =>
        have hj2 : jobStep s (JobEv.finish j true)
            = some { stats := bumpCompleted s.stats k0, pending := aerase j s.pending } := by
          simp [jobStep, hpl]
        rw [hj2] at hstep
        injection hstep with hs2
        subst hs2
        intro k ks hks
        simp only [bumpCompleted] at hks
        simp only at hks ⊢
        rcases statsInv_bump s.stats k0 k _ ks hks with ⟨hk, ks0, hsk, hval⟩ | ⟨hk, hsk⟩
        · have h0 := hinv k ks0 hsk
          have hc : ks.completed = ks0.completed + 1 := by rw [hval]
          have hf : ks.failed = ks0.failed := by rw [hval]
          have ht : ks.total = ks0.total := by rw [hval]
          have hpck := hpc k
          rw [if_pos hk.symm] at hpck
          omega
        · have h0 := hinv k ks hsk
          have hpck := hpc k
          rw [if_neg (fun hh => hk hh.symm)] at hpck
          omega
      | false =>
        have hj2 : jobStep s (JobEv.finish j false)
            = some { stats := bumpFailed s.stats k0, pending := aerase j s.pending } := by
          simp [jobStep, hpl]
        rw [hj2] at hstep
        injection hstep with hs2
        subst hs2
        intro k ks hks
        simp only [bumpFailed] at hks
        simp only at hks ⊢
        rcases statsInv_bump s.stats k0 k _ ks hks with ⟨hk, ks0, hsk, hval⟩ | ⟨hk, hsk⟩
        · have h0 := hinv k ks0 hsk
          have hc : ks.completed = ks0.completed := by rw [hval]
          have hf : ks.failed = ks0.failed + 1 := by rw [hval]
          have ht : ks.total = ks0.total := by rw [hval]
          have hpck := hpc k
          rw [if_pos hk.symm] at hpck
          omega
        · have h0 := hinv k ks hsk
          have hpck := hpc k
          rw [if_neg (fun hh => hk hh.symm)] at hpck
          omega

theorem runJobs_inv : ∀ (evs : List JobEv) (s s2 : StatsWorld),
    statsInv s → runJobs evs s = some s2 → statsInv s2 := by
  intro evs
  induction evs with
  | nil =>
    intro s s2 h hr
    simp only [runJobs, Option.some.injEq] at hr
    subst hr
    exact h
  | cons e evs ih =>
    intro s s2 h hr
    cases hj : jobStep s e with
    | none => simp [runJobs, hj] at hr
    | some s1 =>
      simp only [runJobs, hj] at hr
      exact ih s1 s2 (statsInv_step s e s1 h hj) hr

theorem alookup_const {α : Type} (v : α) :
    ∀ (m : List (String × α)) (k : String) (ks : α),
      (∀ p ∈ m, p.2 = v) → alookup k m = some ks → ks = v := by
  intro m
  induction m with
  | nil =>
    intro k ks _ h
    simp [alookup] at h
  | cons p m ih =>
    intro k ks hall h
    by_cases hp : p.1 = k
    · simp only [alookup, if_pos hp] at h
      injection h with h2
      rw [← h2]
      exact hall p (by simp)
    · simp only [alookup, if_neg hp] at h
      exact ih k ks (fun q hq => hall q (by simp [hq])) h

/-- Claim C2: for every kiosk tracked by the fixed allow-list, after any
interleaved sequence of job lifecycles — each job bumping total and lastActive
once at submission and completed or failed at most once at its terminal
transition — the counters satisfy completed + failed less-or-equal total. -/
theorem kiosk_stats_bounded (evs : List JobEv) (s : StatsWorld)
    (hrun : runJobs evs statsInit = some s) :
    ∀ k ks, alookup k s.stats = some ks → ks.completed + ks.failed ≤ ks.total := by
  have hinit : statsInv statsInit := by
    intro k ks hks
    have hz := alookup_const { total := 0, completed := 0, failed := 0, lastActive := none }
      initKioskStats k ks (by decide) hks
    rw [hz]
    simp [pcount, statsInit]
  have h2 := runJobs_inv evs statsInit s hinit hrun
  intro k ks hks
  have := h2 k ks hks
  omega

theorem kiosk_stats_bounded_witness :
    runJobs
      [JobEv.submit "job-1" "kiosk-1" 5, JobEv.finish "job-1" true,
       JobEv.submit "job-2" "kiosk-1" 9, JobEv.finish "job-2" false,
       JobEv.submit "job-3" "kiosk-2" 11]
      statsInit
      = some ⟨[("kiosk-1", ⟨2, 1, 1, some 9⟩), ("kiosk-2", ⟨1, 0, 0, some 11⟩),
               ("kiosk-3", ⟨0, 0, 0, none⟩), ("kiosk-4", ⟨0, 0, 0, none⟩)],
              [("job-3", "kiosk-2")]⟩
    ∧ (1 : Nat) + 1 ≤ 2 := by
  refine ⟨by decide, ?_⟩
  exact kiosk_stats_bounded
    [JobEv.submit "job-1" "kiosk-1" 5, JobEv.finish "job-1" true,
     JobEv.submit "job-2" "kiosk-1" 9, JobEv.finish "job-2" false,
     JobEv.submit "job-3" "kiosk-2" 11]
    ⟨[("kiosk-1", ⟨2, 1, 1, some 9⟩), ("kiosk-2", ⟨1, 0, 0, some 11⟩),
      ("kiosk-3", ⟨0, 0, 0, none⟩), ("kiosk-4", ⟨0, 0, 0, none⟩)],
     [("job-3", "kiosk-2")]⟩
    (by decide) "kiosk-1" ⟨2, 1, 1, some 9⟩ (by decide)

-- ## Claim C9: concurrency cap and per-bucket start cap

theorem countStarts_append (evs : List QEv) (e : QEv) (b : Nat) :
    countStarts (evs ++ [e]) b = countStarts evs b + (if isStart b e then 1 else 0) := by
  simp [countStarts, List.countP_append, List.countP_cons]

-- The scheduling invariant: the running count respects the concurrency cap,
-- the current bucket's start counter matches the trace, no starts are recorded
-- in future buckets, and every bucket's start count respects the pacing cap.
def qInv (evs : List QEv) (s : QState) : Prop :=
  s.running ≤ qConcurrency
  ∧ countStarts evs s.bucket = s.startedInBucket
  ∧ (∀ b, s.bucket < b → countStarts evs b = 0)
  ∧ (∀ b, countStarts evs b ≤ qIntervalCap)

theorem qInv_step (evs : List QEv) (s : QState) (e : QEv) (s2 : QState)
    (hinv : qInv evs s) (hstep : qStep s e = some s2) : qInv (evs ++ [e]) s2 := by
  obtain ⟨hrun, hcur, hfut, hall⟩ := hinv
  cases e with
  | finish =>
    simp only [qStep] at hstep
    by_cases hr : s.running = 0
    · simp [hr] at hstep
    · rw [if_neg hr] at hstep
      injection hstep with h2
      subst h2
      have hcs : ∀ b, countStarts (evs ++ [QEv.finish]) b = countStarts evs b := by
        intro b
        rw [countStarts_append]
        simp [isStart]
      refine ⟨le_trans (Nat.sub_le _ _) hrun, ?_, ?_, ?_⟩
      · rw [hcs]
        exact hcur
      · intro b hb
        rw [hcs]
        exact hfut b hb
      · intro b
        rw [hcs]
        exact hall b
  | start b =>
    simp only [qStep] at hstep
    have hcsb : countStarts (evs ++ [QEv.start b]) b = countStarts evs b + 1 := by
      rw [countStarts_append]
      simp [isStart]
    have hcsb2 : ∀ b2, b2 ≠ b → countStarts (evs ++ [QEv.start b]) b2 = countStarts evs b2 := by
      intro b2 hb2
      rw [countStarts_append]
      have hne : (b == b2) = false := beq_eq_false_iff_ne.mpr (fun hh => hb2 hh.symm)
      simp [isStart, hne]
    by_cases h1 : b < s.bucket
    · simp [h1] at hstep
    · rw [if_neg h1] at hstep
      by_cases h2 : b = s.bucket
      · rw [if_pos h2] at hstep
        by_cases h3 : s.running < qConcurrency ∧ s.startedInBucket < qIntervalCap
        · rw [if_pos h3] at hstep
          injection hstep with hs2
          subst hs2
          refine ⟨h3.1, ?_, ?_, ?_⟩
          · rw [hcsb, h2, hcur]
          · intro b2 hb2
            have hb2b : b < b2 := hb2
            have hbb : b2 ≠ b := by omega
            rw [hcsb2 b2 hbb]
            exact hfut b2 (h2 ▸ hb2b)
          · intro b2
            by_cases hbb : b2 = b
            · subst hbb
              rw [hcsb, h2, hcur]
              exact h3.2
            · rw [hcsb2 b2 hbb]
              exact hall b2
        · rw [if_neg h3] at hstep
          cases hstep
      · rw [if_neg h2] at hstep
        by_cases h3 : s.running < qConcurrency
        · rw [if_pos h3] at hstep
          injection hstep with hs2
          subst hs2
          have hgt : s.bucket < b := by omega
          have hz : countStarts evs b = 0 := hfut b hgt
          refine ⟨h3, ?_, ?_, ?_⟩
          · rw [hcsb, hz]
          · intro b2 hb2
            have hb2b : b < b2 := hb2
            have hbb : b2 ≠ b := by omega
            rw [hcsb2 b2 hbb]
            exact hfut b2 (by omega)
          · intro b2
            by_cases hbb : b2 = b
            · subst hbb
              rw [hcsb, hz]
              decide
            · rw [hcsb2 b2 hbb]
              exact hall b2
        · rw [if_neg h3] at hstep
          cases hstep

theorem qExec_inv : ∀ (q : List QEv) (evs : List QEv) (s s2 : QState),
    qInv evs s → qExec q s = some s2 → qInv (evs ++ q) s2 := by
  intro q
  induction q with
  | nil =>
    intro evs s s2 h hr
    simp only [qExec, Option.some.injEq] at hr
    subst hr
    simpa using h
  | cons e q ih =>
    intro evs s s2 h hr
    cases hj : qStep s e with
    | none => simp [qExec, hj] at hr
    | some s1 =>
      simp only [qExec, hj] at hr
      have h2 := qInv_step evs s e s1 h hj
      have h3 := ih (evs ++ [e]) s1 s2 h2 hr
      simpa [List.append_assoc] using h3

/-- Claim C9: in the modelled p-queue discipline (concurrency 2, at most 3
starts per 1-second bucket, from the generationQueue configuration), every
accepted event trace keeps the number of concurrently executing tasks at or
below 2 at every prefix, and at most 3 tasks start within any one bucket. -/
theorem queue_concurrency_and_pacing (evs : List QEv) (s : QState)
    (h : qExec evs qInit = some s) :
    (∀ b, countStarts evs b ≤ qIntervalCap)
    ∧ (∀ p q2 s2, evs = p ++ q2 → qExec p qInit = some s2 → s2.running ≤ qConcurrency) := by
  have hinit : qInv [] qInit :=
    ⟨Nat.zero_le _, by simp [countStarts, qInit], fun b _ => by simp [countStarts],
     fun b => by simp [countStarts]⟩
  constructor
  · have h2 := qExec_inv evs [] qInit s hinit h
    have h3 := h2.2.2.2
    simpa using h3
  · intro p q2 s2 hsplit hp
    have h2 := qExec_inv p [] qInit s2 hinit hp
    exact h2.1

theorem queue_concurrency_and_pacing_witness :
    qExec [QEv.start 0, QEv.start 0, QEv.finish, QEv.start 0, QEv.finish, QEv.start 1,
           QEv.finish, QEv.finish] qInit = some ⟨0, 1, 1⟩
    ∧ countStarts [QEv.start 0, QEv.start 0, QEv.finish, QEv.start 0, QEv.finish, QEv.start 1,
           QEv.finish, QEv.finish] 0 ≤ qIntervalCap
    ∧ (⟨2, 0, 2⟩ : QState).running ≤ qConcurrency := by
  refine ⟨by decide, ?_, ?_⟩
  · exact (queue_concurrency_and_pacing
      [QEv.start 0, QEv.start 0, QEv.finish, QEv.start 0, QEv.finish, QEv.start 1,
       QEv.finish, QEv.finish] ⟨0, 1, 1⟩ (by decide)).1 0
  · exact (queue_concurrency_and_pacing
      [QEv.start 0, QEv.start 0, QEv.finish, QEv.start 0, QEv.finish, QEv.start 1,
       QEv.finish, QEv.finish] ⟨0, 1, 1⟩ (by decide)).2
      [QEv.start 0, QEv.start 0]
      [QEv.finish, QEv.start 0, QEv.finish, QEv.start 1, QEv.finish, QEv.finish]
      ⟨2, 0, 2⟩ (by decide) (by decide)

-- ## Claim C7: trailing-window admission

theorem countP_filter_window (st : List Nat) (x t : Nat) (hxt : x ≤ t) :
    (st.filter (fun u => decide (x < u + rlWindowMs))).countP
        (fun u => decide (t < u + rlWindowMs))
      = st.countP (fun u => decide (t < u + rlWindowMs)) := by
  induction st with
  | nil => rfl
  | cons u st ih =>
    by_cases hwt : t < u + rlWindowMs
    · have hwx : x < u + rlWindowMs := lt_of_le_of_lt hxt hwt
      simp [List.filter_cons, List.countP_cons, hwt, hwx, ih]
    · by_cases hwx : x < u + rlWindowMs
      · simp [List.filter_cons, List.countP_cons, hwt, hwx, ih]
      · simp [List.filter_cons, List.countP_cons, hwt, hwx, ih]

-- The per-key store always counts, inside any trailing window reaching beyond
-- the last request, exactly the requests that were admitted so far: expiring
-- stale timestamps at each step drops only timestamps outside every later
-- window.
theorem rlState_window_count :
    ∀ (ts : List Nat) (st : List Nat) (t : Nat),
      (∀ x ∈ ts, x ≤ t) → List.Pairwise (fun a b => a ≤ b) ts →
      (∀ u ∈ st, ∀ x ∈ ts, u ≤ x) →
      (rlStateAfter st ts).countP (fun u => decide (t < u + rlWindowMs))
        = st.countP (fun u => decide (t < u + rlWindowMs))
          + (rlAdmittedTimes st ts).countP (fun u => decide (t < u + rlWindowMs)) := by
  intro ts
  induction ts with
  | nil =>
    intro st t h1 h2 h3
    simp [rlStateAfter, rlAdmittedTimes]
  | cons x ts ih =>
    intro st t h1 h2 h3
    have hxt : x ≤ t := h1 x (by simp)
    have hts_le : ∀ y ∈ ts, y ≤ t := fun y hy => h1 y (List.mem_cons_of_mem x hy)
    have hpw := List.pairwise_cons.mp h2
    by_cases hd : (st.filter (fun u => decide (x < u + rlWindowMs))).length < rlMax
    · have hadm : rlAdmit st x = (true, x :: st.filter (fun u => decide (x < u + rlWindowMs))) := by
        simp [rlAdmit, hd]
      have hst_le : ∀ u ∈ x :: st.filter (fun u => decide (x < u + rlWindowMs)),
          ∀ y ∈ ts, u ≤ y := by
        intro u hu y hy
        rcases List.mem_cons.mp hu with hux | huf
        · subst hux
          exact hpw.1 y hy
        · exact h3 u (List.mem_of_mem_filter huf) y (List.mem_cons_of_mem x hy)
      have hih := ih (x :: st.filter (fun u => decide (x < u + rlWindowMs))) t hts_le hpw.2 hst_le
      rw [rlStateAfter, hadm]
      rw [show rlAdmittedTimes st (x :: ts)
            = x :: rlAdmittedTimes (x :: st.filter (fun u => decide (x < u + rlWindowMs))) ts by
          rw [rlAdmittedTimes]
          simp [hadm]]
      rw [hih]
      rw [List.countP_cons, List.countP_cons]
      rw [countP_filter_window st x t hxt]
      omega
    · have hadm : rlAdmit st x = (false, st.filter (fun u => decide (x < u + rlWindowMs))) := by
        simp [rlAdmit, hd]
      have hst_le : ∀ u ∈ st.filter (fun u => decide (x < u + rlWindowMs)),
          ∀ y ∈ ts, u ≤ y := by
        intro u hu y hy
        exact h3 u (List.mem_of_mem_filter hu) y (List.mem_cons_of_mem x hy)
      have hih := ih (st.filter (fun u => decide (x < u + rlWindowMs))) t hts_le hpw.2 hst_le
      rw [rlStateAfter, hadm]
      rw [show rlAdmittedTimes st (x :: ts)
            = rlAdmittedTimes (st.filter (fun u => decide (x < u + rlWindowMs))) ts by
          rw [rlAdmittedTimes]
          simp [hadm]]
      rw [hih]
      rw [countP_filter_window st x t hxt]

/-- Claim C7: under the modelled trailing-window contract of the kioskLimiter
configuration (window 60000 ms, limit 5 per key), a request arriving at time t
after a monotone request history is admitted if and only if fewer than 5
requests were admitted within the trailing window (t - 60000, t]; in
particular a sixth request inside the window is rejected and the key is
admitted again once the window has elapsed. -/
theorem rate_limiter_trailing_window (hist : List Nat) (t : Nat)
    (hmono : List.Pairwise (fun a b => a ≤ b) hist)
    (hle : ∀ x ∈ hist, x ≤ t) :
    (rlAdmit (rlStateAfter [] hist) t).fst = true
      ↔ (rlAdmittedTimes [] hist).countP (fun u => decide (t < u + rlWindowMs)) < rlMax := by
  have hcount := rlState_window_count hist [] t hle hmono (by simp)
  simp only [List.countP_nil, Nat.zero_add] at hcount
  have hlen : ((rlStateAfter [] hist).filter (fun u => decide (t < u + rlWindowMs))).length
      = (rlAdmittedTimes [] hist).countP (fun u => decide (t < u + rlWindowMs)) := by
    rw [← hcount]
    exact (List.countP_eq_length_filter _ _).symm
  simp only [rlAdmit]
  rw [hlen]
  by_cases hlt : (rlAdmittedTimes [] hist).countP (fun u => decide (t < u + rlWindowMs)) < rlMax
  · simp [hlt]
  · simp [hlt]

theorem rate_limiter_trailing_window_witness :
    (rlAdmit (rlStateAfter [] [0, 10, 20, 30, 40]) 50).fst = false
    ∧ (rlAdmit (rlStateAfter [] [0, 10, 20, 30, 40]) 100000).fst = true := by
  constructor
  · have h := rate_limiter_trailing_window [0, 10, 20, 30, 40] 50 (by decide) (by decide)
    cases hb : (rlAdmit (rlStateAfter [] [0, 10, 20, 30, 40]) 50).fst with
    | false => rfl
    | true => exact absurd (h.mp hb) (by decide)
  · exact (rate_limiter_trailing_window [0, 10, 20, 30, 40] 100000 (by decide)
      (by decide)).mpr (by decide)

end Marathon
